import Mathlib

/-!
Verification of `windenergytk/aerodyn.py` (Blade Element Momentum rotor
analysis) against its natural-language specification.

The Python module is embedded shallowly over the real numbers: every
`numpy` scalar function becomes the corresponding `Real` function, Python
floats become `ℝ`, and the integer blade count becomes `ℕ` (the module is
Python 2 source, so `number_of_blades / 2` is integer floor division).
The per-station `while` loop of `linear_rotor_analysis` is embedded as a
fuel-indexed recursion (`station_loop`); a theorem below proves that fuel 3
is enough, i.e. the loop always stops after at most two executions of its
body, so `station_solve` running the loop with fuel 3 is an exact rendering
of the unbounded source loop.
-/

namespace Aerodyn

noncomputable section

/-- Embedding of `q_terms` (aerodyn.py lines 43-77): the three coefficients
of the quadratic used by the linearized angle-of-attack calculation. -/
def q_terms (local_pitch local_tsr lift_coef_slope lift_coef_intercept
    local_solidity : ℝ) : ℝ × ℝ × ℝ :=
  let d1 := Real.cos local_pitch - local_tsr * Real.sin local_pitch
  let d2 := Real.sin local_pitch + local_tsr * Real.cos local_pitch
  let q1 := d1 * lift_coef_slope + 4 * local_tsr / local_solidity *
    Real.cos local_pitch * d2
  let q2 := d2 * lift_coef_slope + (d1 * lift_coef_intercept -
    4 * local_tsr / local_solidity *
      (d1 * Real.cos local_pitch - d2 * Real.sin local_pitch))
  let q3 := d2 * lift_coef_intercept - 4 * local_tsr / local_solidity *
    d1 * Real.sin local_pitch
  (q1, q2, q3)

/-- Embedding of `calc_attack_angle` (aerodyn.py lines 80-95). -/
def calc_attack_angle (q1 q2 q3 : ℝ) : ℝ :=
  -(Real.sqrt (q2 ^ 2 - 4 * q1 * q3) - q2) / (2 * q1)

/-- Embedding of `calc_axial_factor` (aerodyn.py lines 98-103). -/
def calc_axial_factor (local_tip_loss lift_coefficient angle_of_rwind
    local_solidity : ℝ) : ℝ :=
  1 / (1 + 4 * local_tip_loss * Real.sin angle_of_rwind ^ 2 /
    (local_solidity * lift_coefficient * Real.cos angle_of_rwind))

/-- Embedding of `calc_angular_factor` (aerodyn.py lines 106-108). -/
def calc_angular_factor (axial_induc_factor angle_of_rwind local_tsr : ℝ) : ℝ :=
  axial_induc_factor * Real.tan angle_of_rwind / local_tsr

/-- Embedding of `tip_loss` (aerodyn.py lines 110-132).  The blade count is
an `ℕ` and `number_of_blades / 2` is Python 2 integer division, exactly as
the source executes it. -/
def tip_loss (number_of_blades : ℕ) (fractional_radius angle_of_rwind : ℝ) : ℝ :=
  let tmp := Real.exp (-((number_of_blades / 2 : ℕ) : ℝ) * (1 - fractional_radius) /
    (fractional_radius * Real.sin angle_of_rwind))
  if tmp > 0 ∧ 1 - tmp ^ 2 > 0 then
    Real.arctan (Real.sqrt (1 - tmp ^ 2) / tmp / (Real.pi / 2))
  else 1

/-- Embedding of `rotor_coefs` (aerodyn.py lines 135-167); returns
(thrust, torque, power) local coefficients in the source's order.
`angular_induc_factor` is accepted and unused, exactly as in the source. -/
def rotor_coefs (axial_induc_factor angular_induc_factor angle_of_rwind
    tsr local_tsr : ℝ) (num_stations : ℕ)
    (local_solidity lift_coefficient drag_coefficient local_tip_loss : ℝ) :
    ℝ × ℝ × ℝ :=
  let local_thrust_coef := local_solidity * (1 - axial_induc_factor) ^ 2 *
    (lift_coefficient * Real.cos angle_of_rwind +
      drag_coefficient * Real.sin angle_of_rwind) /
    Real.sin angle_of_rwind ^ 2
  let local_power_coef := 8 / (tsr * (num_stations : ℝ)) * local_tip_loss *
    Real.sin angle_of_rwind ^ 2 *
    (Real.cos angle_of_rwind - local_tsr * Real.sin angle_of_rwind) *
    (Real.sin angle_of_rwind + local_tsr * Real.cos angle_of_rwind) *
    (1 - drag_coefficient / lift_coefficient * (1 / Real.tan angle_of_rwind)) *
    local_tsr ^ 2
  let local_torque_coef := local_power_coef / local_tsr
  (local_thrust_coef, local_torque_coef, local_power_coef)

/-- The quantities live across one iteration of the tip-loss fixed-point
loop of `linear_rotor_analysis` (aerodyn.py lines 262-287). -/
structure LoopState where
  angle_of_attack : ℝ
  angle_of_rwind : ℝ
  lift_coefficient : ℝ
  axial_induc_factor : ℝ
  angular_induc_factor : ℝ
  drag_coefficient : ℝ
  local_tip_loss : ℝ

/-- One execution of the body of the `while tip_loss_epsilon > 0.01` loop
(aerodyn.py lines 262-287), as a function of the current tip-loss estimate
`F` (all other quantities read by the body are loop invariants). -/
def station_body (number_blades : ℕ) (fradius local_pitch local_tsr
    local_solidity lift_coef_slope lift_coef_intercept drag_coef_slope
    drag_coef_intercept : ℝ) (F : ℝ) : LoopState :=
  let q := q_terms local_pitch local_tsr lift_coef_slope lift_coef_intercept
    local_solidity
  let angle_of_attack := calc_attack_angle q.1 q.2.1 q.2.2
  let angle_of_rwind := local_pitch + angle_of_attack
  let lift_coefficient := angle_of_attack * lift_coef_slope + lift_coef_intercept
  let axial_induc_factor := calc_axial_factor F lift_coefficient angle_of_rwind
    local_solidity
  let angular_induc_factor := calc_angular_factor axial_induc_factor
    angle_of_rwind local_tsr
  let drag_coefficient := drag_coef_slope * angle_of_attack + drag_coef_intercept
  ⟨angle_of_attack, angle_of_rwind, lift_coefficient, axial_induc_factor,
    angular_induc_factor, drag_coefficient,
    tip_loss number_blades fradius angle_of_rwind⟩

/-- Fuel-indexed rendering of the `while tip_loss_epsilon > 0.01` loop: the
guard is checked before each body execution, the body recomputes the state
from the current tip-loss estimate, and the new epsilon is the absolute
difference of successive tip-loss values.  `station_loop_stable` proves the
loop is insensitive to any fuel beyond 3, so the fuel is not a semantic
deviation from the unbounded source loop. -/
def station_loop (number_blades : ℕ) (fradius local_pitch local_tsr
    local_solidity lift_coef_slope lift_coef_intercept drag_coef_slope
    drag_coef_intercept : ℝ) : ℕ → LoopState → ℝ → LoopState
  | 0, s, _ => s
  | fuel + 1, s, eps =>
    if eps > 0.01 then
      let s' := station_body number_blades fradius local_pitch local_tsr
        local_solidity lift_coef_slope lift_coef_intercept drag_coef_slope
        drag_coef_intercept s.local_tip_loss
      station_loop number_blades fradius local_pitch local_tsr local_solidity
        lift_coef_slope lift_coef_intercept drag_coef_slope drag_coef_intercept
        fuel s' |s'.local_tip_loss - s.local_tip_loss|
    else s

/-- The per-station output record built at aerodyn.py lines 300-304, in the
order the source appends the fields. -/
structure StationResult where
  local_radius : ℝ
  tip_loss_factor : ℝ
  angle_of_attack : ℝ
  angle_of_rwind : ℝ
  lift_coefficient : ℝ
  drag_coefficient : ℝ
  axial_induction_factor : ℝ
  angular_induction_factor : ℝ
  local_power_coefficient : ℝ

/-- One iteration of the station loop of `linear_rotor_analysis`
(aerodyn.py lines 244-304): derive the local geometry quantities, run the
tip-loss fixed-point loop (initial tip loss 1, initial epsilon 1), then
compute the local coefficients and assemble the station record. -/
def station_solve (num_stations : ℕ) (tsr : ℝ) (number_blades : ℕ)
    (pitch_0 blade_radius lift_coef_slope lift_coef_intercept drag_coef_slope
    drag_coef_intercept : ℝ) (row : ℝ × ℝ × ℝ) : StationResult :=
  let local_radius := row.1 * blade_radius
  let local_chord := row.2.1
  let local_tsr := tsr * row.1
  let local_solidity := (number_blades : ℝ) * local_chord /
    (2 * Real.pi * local_radius)
  let local_pitch := row.2.2 + pitch_0
  let s := station_loop number_blades row.1 local_pitch local_tsr local_solidity
    lift_coef_slope lift_coef_intercept drag_coef_slope drag_coef_intercept
    3 ⟨0, 0, 0, 0, 0, 0, 1⟩ 1
  let coefs := rotor_coefs s.axial_induc_factor s.angular_induc_factor
    s.angle_of_rwind tsr local_tsr num_stations local_solidity
    s.lift_coefficient s.drag_coefficient s.local_tip_loss
  ⟨local_radius, s.local_tip_loss, s.angle_of_attack, s.angle_of_rwind,
    s.lift_coefficient, s.drag_coefficient, s.axial_induc_factor,
    s.angular_induc_factor, coefs.2.2⟩

/-- The full station sweep of `linear_rotor_analysis` (aerodyn.py lines
241-308): the ordered list of station records together with the running
`total_power_coefficient` accumulator.  The source builds exactly this pair
but its `return` statement only surrenders the list. -/
def linear_rotor_analysis_full (rct_matrix : List (ℝ × ℝ × ℝ)) (tsr : ℝ)
    (number_blades : ℕ) (pitch_0 blade_radius hub_radius lift_coef_slope
    lift_coef_intercept drag_coef_slope drag_coef_intercept : ℝ) :
    List StationResult × ℝ :=
  rct_matrix.foldl
    (fun acc row =>
      (acc.1 ++ [station_solve rct_matrix.length tsr number_blades pitch_0
          blade_radius lift_coef_slope lift_coef_intercept drag_coef_slope
          drag_coef_intercept row],
       acc.2 + (station_solve rct_matrix.length tsr number_blades pitch_0
          blade_radius lift_coef_slope lift_coef_intercept drag_coef_slope
          drag_coef_intercept row).local_power_coefficient))
    ([], 0)

/-- The value actually returned by `linear_rotor_analysis` (aerodyn.py line
308): only the station list; the accumulated total power coefficient is
dropped by the `return` statement. -/
def linear_rotor_analysis (rct_matrix : List (ℝ × ℝ × ℝ)) (tsr : ℝ)
    (number_blades : ℕ) (pitch_0 blade_radius hub_radius lift_coef_slope
    lift_coef_intercept drag_coef_slope drag_coef_intercept : ℝ) :
    List StationResult :=
  (linear_rotor_analysis_full rct_matrix tsr number_blades pitch_0 blade_radius
    hub_radius lift_coef_slope lift_coef_intercept drag_coef_slope
    drag_coef_intercept).1

/-- Embedding of `nonlinear_rotor_analysis` (aerodyn.py lines 312-350): the
returned dict, as the ordered key/value list the source literal writes. -/
def nonlinear_rotor_analysis (rct_matrix : List (ℝ × ℝ × ℝ))
    (angle_of_attack lift_coefficient drag_coefficient : ℝ) :
    List (String × Bool) :=
  [("total_radius", false),
   ("tip_loss_factor", false),
   ("angle_of_attack", false),
   ("angle_of_rwind", false),
   ("lift_coefficient", false),
   ("drag_coefficient", false),
   ("axial_induction_factor", false),
   ("angular_induction_factor", false),
   ("local_power_coefficient", false)]

/-- Claim C9: `nonlinear_rotor_analysis` performs no analysis: on every
input it returns the one constant record whose nine fields are all the
sentinel `False`, so its output is independent of its inputs. -/
theorem c9_theorem (rct_matrix : List (ℝ × ℝ × ℝ))
    (angle_of_attack lift_coefficient drag_coefficient : ℝ) :
    nonlinear_rotor_analysis rct_matrix angle_of_attack lift_coefficient
        drag_coefficient =
      [("total_radius", false), ("tip_loss_factor", false),
       ("angle_of_attack", false), ("angle_of_rwind", false),
       ("lift_coefficient", false), ("drag_coefficient", false),
       ("axial_induction_factor", false), ("angular_induction_factor", false),
       ("local_power_coefficient", false)] ∧
    nonlinear_rotor_analysis rct_matrix angle_of_attack lift_coefficient
        drag_coefficient = nonlinear_rotor_analysis [] 0 0 0 :=
  ⟨rfl, rfl⟩

/-- Claim C5: whenever the Prandtl argument `t` of `tip_loss` satisfies
`t ≤ 0` or `1 - t² ≤ 0`, the function returns exactly `1.0` (the guarded
else branch) instead of evaluating the arctan formula. -/
theorem c5_theorem (number_of_blades : ℕ) (fractional_radius angle_of_rwind : ℝ)
    (h : Real.exp (-((number_of_blades / 2 : ℕ) : ℝ) * (1 - fractional_radius) /
          (fractional_radius * Real.sin angle_of_rwind)) ≤ 0 ∨
        1 - Real.exp (-((number_of_blades / 2 : ℕ) : ℝ) * (1 - fractional_radius) /
          (fractional_radius * Real.sin angle_of_rwind)) ^ 2 ≤ 0) :
    tip_loss number_of_blades fractional_radius angle_of_rwind = 1 := by
  unfold tip_loss
  rw [if_neg]
  rintro ⟨h1, h2⟩
  rcases h with h | h
  · exact absurd h (not_le.mpr h1)
  · exact absurd h (not_le.mpr h2)

/-- Witness for C5 at the concrete input `number_of_blades = 1`,
`fractional_radius = 1/2`, `angle_of_rwind = 1`: there `t = exp 0 = 1`
(Python 2 floor division makes `1 / 2 = 0`), the hypothesis `1 - t² ≤ 0`
holds, and `tip_loss` returns `1`. -/
theorem c5_witness :
    1 - Real.exp (-(((1 : ℕ) / 2 : ℕ) : ℝ) * (1 - (1 / 2 : ℝ)) /
        ((1 / 2 : ℝ) * Real.sin 1)) ^ 2 ≤ 0 ∧
    tip_loss 1 (1 / 2) 1 = 1 := by
  have h : 1 - Real.exp (-(((1 : ℕ) / 2 : ℕ) : ℝ) * (1 - (1 / 2 : ℝ)) /
      ((1 / 2 : ℝ) * Real.sin 1)) ^ 2 ≤ 0 := by
    norm_num [Real.exp_zero]
  exact ⟨h, c5_theorem 1 (1 / 2) 1 (Or.inr h)⟩

/-- One-step unfolding of the fuel-indexed while loop. -/
lemma station_loop_succ (B : ℕ) (a b c d e f g h : ℝ) (fuel : ℕ)
    (s : LoopState) (eps : ℝ) :
    station_loop B a b c d e f g h (fuel + 1) s eps =
      if eps > 0.01 then
        station_loop B a b c d e f g h fuel
          (station_body B a b c d e f g h s.local_tip_loss)
          |(station_body B a b c d e f g h s.local_tip_loss).local_tip_loss -
            s.local_tip_loss|
      else s := rfl

/-- When the convergence test succeeds the loop returns the current state. -/
lemma station_loop_exit (B : ℕ) (a b c d e f g h : ℝ) (fuel : ℕ)
    (s : LoopState) (eps : ℝ) (heps : ¬ eps > 0.01) :
    station_loop B a b c d e f g h (fuel + 1) s eps = s := by
  rw [station_loop_succ]
  exact if_neg heps

/-- The tip-loss value recomputed by the loop body does not depend on the
current tip-loss estimate fed into the body. -/
lemma station_body_tip_const (B : ℕ) (a b c d e f g h F F' : ℝ) :
    (station_body B a b c d e f g h F).local_tip_loss =
      (station_body B a b c d e f g h F').local_tip_loss := rfl

/-- Claim C10: the tip-loss fixed-point loop terminates after at most two
body executions.  The recomputed tip loss never reads the current estimate
(first conjunct), hence the second recomputation reproduces the first
exactly — the convergence delta is 0 ≤ 0.01 (second conjunct) — and the
loop result is unchanged by any fuel beyond 3, i.e. beyond two body
executions plus the final guard check (third conjunct). -/
theorem c10_theorem (B : ℕ) (a b c d e f g h : ℝ) :
    (∀ F F', (station_body B a b c d e f g h F).local_tip_loss =
      (station_body B a b c d e f g h F').local_tip_loss) ∧
    (∀ F, |(station_body B a b c d e f g h
        ((station_body B a b c d e f g h F).local_tip_loss)).local_tip_loss -
        (station_body B a b c d e f g h F).local_tip_loss| = 0) ∧
    (∀ (fuel : ℕ) (s : LoopState) (eps : ℝ),
      station_loop B a b c d e f g h (fuel + 3) s eps =
        station_loop B a b c d e f g h 3 s eps) := by
  refine ⟨fun F F' => station_body_tip_const B a b c d e f g h F F', fun F => ?_, ?_⟩
  · rw [station_body_tip_const B a b c d e f g h
      ((station_body B a b c d e f g h F).local_tip_loss) F, sub_self, abs_zero]
  · intro fuel s eps
    by_cases h0 : eps > 0.01
    · have stepL1 : station_loop B a b c d e f g h (fuel + 2 + 1) s eps =
          station_loop B a b c d e f g h (fuel + 2)
            (station_body B a b c d e f g h s.local_tip_loss)
            |(station_body B a b c d e f g h s.local_tip_loss).local_tip_loss -
              s.local_tip_loss| := by
        rw [station_loop_succ]
        exact if_pos h0
      have stepR1 : station_loop B a b c d e f g h (2 + 1) s eps =
          station_loop B a b c d e f g h 2
            (station_body B a b c d e f g h s.local_tip_loss)
            |(station_body B a b c d e f g h s.local_tip_loss).local_tip_loss -
              s.local_tip_loss| := by
        rw [station_loop_succ]
        exact if_pos h0
      by_cases h1 : |(station_body B a b c d e f g h
          s.local_tip_loss).local_tip_loss - s.local_tip_loss| > 0.01
      · have hne : ¬ |(station_body B a b c d e f g h
            ((station_body B a b c d e f g h
              s.local_tip_loss).local_tip_loss)).local_tip_loss -
            (station_body B a b c d e f g h
              s.local_tip_loss).local_tip_loss| > 0.01 := by
          rw [station_body_tip_const B a b c d e f g h
            ((station_body B a b c d e f g h s.local_tip_loss).local_tip_loss)
            s.local_tip_loss, sub_self, abs_zero]
          norm_num
        have stepL2 : station_loop B a b c d e f g h (fuel + 1 + 1)
            (station_body B a b c d e f g h s.local_tip_loss)
            |(station_body B a b c d e f g h s.local_tip_loss).local_tip_loss -
              s.local_tip_loss| =
            station_loop B a b c d e f g h (fuel + 1)
              (station_body B a b c d e f g h
                ((station_body B a b c d e f g h
                  s.local_tip_loss).local_tip_loss))
              |(station_body B a b c d e f g h
                  ((station_body B a b c d e f g h
                    s.local_tip_loss).local_tip_loss)).local_tip_loss -
                (station_body B a b c d e f g h
                  s.local_tip_loss).local_tip_loss| := by
          rw [station_loop_succ]
          exact if_pos h1
        have stepR2 : station_loop B a b c d e f g h (1 + 1)
            (station_body B a b c d e f g h s.local_tip_loss)
            |(station_body B a b c d e f g h s.local_tip_loss).local_tip_loss -
              s.local_tip_loss| =
            station_loop B a b c d e f g h 1
              (station_body B a b c d e f g h
                ((station_body B a b c d e f g h
                  s.local_tip_loss).local_tip_loss))
              |(station_body B a b c d e f g h
                  ((station_body B a b c d e f g h
                    s.local_tip_loss).local_tip_loss)).local_tip_loss -
                (station_body B a b c d e f g h
                  s.local_tip_loss).local_tip_loss| := by
          rw [station_loop_succ]
          exact if_pos h1
        have endL := station_loop_exit B a b c d e f g h fuel
          (station_body B a b c d e f g h
            ((station_body B a b c d e f g h s.local_tip_loss).local_tip_loss))
          |(station_body B a b c d e f g h
              ((station_body B a b c d e f g h
                s.local_tip_loss).local_tip_loss)).local_tip_loss -
            (station_body B a b c d e f g h
              s.local_tip_loss).local_tip_loss| hne
        have endR := station_loop_exit B a b c d e f g h 0
          (station_body B a b c d e f g h
            ((station_body B a b c d e f g h s.local_tip_loss).local_tip_loss))
          |(station_body B a b c d e f g h
              ((station_body B a b c d e f g h
                s.local_tip_loss).local_tip_loss)).local_tip_loss -
            (station_body B a b c d e f g h
              s.local_tip_loss).local_tip_loss| hne
        exact ((stepL1.trans stepL2).trans endL).trans
          (((stepR1.trans stepR2).trans endR).symm)
      · have endL := station_loop_exit B a b c d e f g h (fuel + 1)
          (station_body B a b c d e f g h s.local_tip_loss)
          |(station_body B a b c d e f g h s.local_tip_loss).local_tip_loss -
            s.local_tip_loss| h1
        have endR := station_loop_exit B a b c d e f g h 1
          (station_body B a b c d e f g h s.local_tip_loss)
          |(station_body B a b c d e f g h s.local_tip_loss).local_tip_loss -
            s.local_tip_loss| h1
        exact (stepL1.trans endL).trans ((stepR1.trans endR).symm)
    · exact (station_loop_exit B a b c d e f g h (fuel + 2) s eps h0).trans
        (station_loop_exit B a b c d e f g h 2 s eps h0).symm

/-- Claim C7: on a two-station table whose rows are identical, the analysis
produces the very same station record at both positions (in particular all
fields other than `local_radius` agree): one station's solve has no effect
on the other's. -/
theorem c7_theorem (tsr : ℝ) (B : ℕ) (p0 R hub ls li ds di : ℝ)
    (row : ℝ × ℝ × ℝ) :
    ∃ s, linear_rotor_analysis [row, row] tsr B p0 R hub ls li ds di = [s, s] :=
  ⟨station_solve 2 tsr B p0 R ls li ds di row, rfl⟩

/-- Unrolling the station sweep: the fold produces the mapped station list
and the sum of the per-station local power coefficients. -/
lemma foldl_spec (n : ℕ) (tsr : ℝ) (B : ℕ) (p0 R ls li ds di : ℝ) :
    ∀ (l : List (ℝ × ℝ × ℝ)) (acc : List StationResult) (t : ℝ),
      List.foldl
        (fun acc row =>
          (acc.1 ++ [station_solve n tsr B p0 R ls li ds di row],
           acc.2 + (station_solve n tsr B p0 R ls li ds di
              row).local_power_coefficient))
        (acc, t) l =
      (acc ++ l.map (station_solve n tsr B p0 R ls li ds di),
       t + (l.map (fun row => (station_solve n tsr B p0 R ls li ds di
          row).local_power_coefficient)).sum) := by
  intro l
  induction l with
  | nil => intro acc t; simp
  | cons hd tl ih =>
    intro acc t
    simp only [List.foldl_cons, List.map_cons, List.sum_cons, ih]
    simp [add_assoc]

/-- The station sweep is the map of `station_solve` over the geometry rows
paired with the sum of their local power coefficients. -/
lemma full_eq (rct : List (ℝ × ℝ × ℝ)) (tsr : ℝ) (B : ℕ)
    (p0 R hub ls li ds di : ℝ) :
    linear_rotor_analysis_full rct tsr B p0 R hub ls li ds di =
      (rct.map (station_solve rct.length tsr B p0 R ls li ds di),
       (rct.map (fun row => (station_solve rct.length tsr B p0 R ls li ds di
          row).local_power_coefficient)).sum) := by
  unfold linear_rotor_analysis_full
  rw [foldl_spec]
  simp

/-- Claim C4 (supporting theorem): the running `total_power_coefficient`
accumulated by `linear_rotor_analysis` equals the exact sum of the local
power coefficients of the station records in the produced sequence.  (The
source drops this scalar at its `return` statement: `linear_rotor_analysis`
returns only the first component of `linear_rotor_analysis_full`.) -/
theorem c4_theorem (rct : List (ℝ × ℝ × ℝ)) (tsr : ℝ) (B : ℕ)
    (p0 R hub ls li ds di : ℝ) :
    (linear_rotor_analysis_full rct tsr B p0 R hub ls li ds di).2 =
      ((linear_rotor_analysis_full rct tsr B p0 R hub ls li ds
          di).1.map (fun s => s.local_power_coefficient)).sum := by
  rw [full_eq]
  simp only [List.map_map]
  rfl

/-- Mapping a function over a list relates the image to the original list
pointwise, in order. -/
lemma forall2_map_self {α β : Type} (f : α → β) (P : β → α → Prop)
    (h : ∀ a, P (f a) a) : ∀ l : List α, List.Forall₂ P (l.map f) l
  | [] => List.Forall₂.nil
  | a :: l => List.Forall₂.cons (h a) (forall2_map_self f P h l)

/-- Claim C6: the analysis returns exactly one record per geometry row, in
the same order: the j-th record is `station_solve` of the j-th row, and its
first field is that row's fractional radius times the blade radius. -/
theorem c6_theorem (rct : List (ℝ × ℝ × ℝ)) (tsr : ℝ) (B : ℕ)
    (p0 R hub ls li ds di : ℝ) :
    List.Forall₂
      (fun s row => s.local_radius = row.1 * R ∧
        s = station_solve rct.length tsr B p0 R ls li ds di row)
      (linear_rotor_analysis rct tsr B p0 R hub ls li ds di) rct := by
  have h : linear_rotor_analysis rct tsr B p0 R hub ls li ds di =
      rct.map (station_solve rct.length tsr B p0 R ls li ds di) := by
    unfold linear_rotor_analysis
    rw [full_eq]
  rw [h]
  exact forall2_map_self _ _ (fun row => ⟨rfl, rfl⟩) rct

/-- Concrete evaluation of `q_terms` at pitch 0, tsr 1, slope 1, intercept
0, solidity 1, a non-degenerate input (q1 = 5 ≠ 0, discriminant 9 ≥ 0). -/
lemma q_terms_eval : q_terms 0 1 1 0 1 = (5, -3, 0) := by
  norm_num [q_terms, Real.cos_zero, Real.sin_zero, Prod.ext_iff]

/-- Concrete evaluation of `calc_attack_angle` at the q-terms above. -/
lemma attack_eval : calc_attack_angle 5 (-3) 0 = -(3 / 5) := by
  unfold calc_attack_angle
  rw [show ((-3 : ℝ)) ^ 2 - 4 * 5 * 0 = 3 ^ 2 by norm_num,
    Real.sqrt_sq (by norm_num : (0 : ℝ) ≤ 3)]
  norm_num

/-- The value returned by `calc_attack_angle` is an exact root of the
quadratic `q1·α² − q2·α + q3` (note the sign of the middle term). -/
lemma attack_angle_root (q1 q2 q3 : ℝ) (h1 : q1 ≠ 0)
    (h2 : 0 ≤ q2 ^ 2 - 4 * q1 * q3) :
    q1 * calc_attack_angle q1 q2 q3 ^ 2 - q2 * calc_attack_angle q1 q2 q3 + q3
      = 0 := by
  have hs : Real.sqrt (q2 ^ 2 - 4 * q1 * q3) ^ 2 = q2 ^ 2 - 4 * q1 * q3 :=
    Real.sq_sqrt h2
  unfold calc_attack_angle
  field_simp
  nlinarith [hs]

/-- Claim C1, as stated, is false: at the non-degenerate input
pitch 0, tsr 1, slope 1, intercept 0, solidity 1, `q_terms` yields
(5, −3, 0) with q1 ≠ 0 and nonnegative discriminant, yet the residual
`q1·α² + q2·α + q3` at α = `calc_attack_angle` is 18/5, far above 1e-9. -/
theorem c1_counterexample :
    q_terms 0 1 1 0 1 = (5, -3, 0) ∧ (5 : ℝ) ≠ 0 ∧
    (0 : ℝ) ≤ (-3 : ℝ) ^ 2 - 4 * 5 * 0 ∧
    1e-9 < |5 * calc_attack_angle 5 (-3) 0 ^ 2 +
      (-3) * calc_attack_angle 5 (-3) 0 + 0| := by
  refine ⟨q_terms_eval, by norm_num, by norm_num, ?_⟩
  rw [attack_eval,
    show (5 : ℝ) * (-(3 / 5)) ^ 2 + (-3) * (-(3 / 5)) + 0 = 18 / 5 by norm_num,
    abs_of_nonneg (by norm_num : (0 : ℝ) ≤ 18 / 5)]
  norm_num

/-- Claim C1 (amended): for the (q1, q2, q3) produced by `q_terms`, when
q1 ≠ 0 and the discriminant q2² − 4·q1·q3 is nonnegative, the angle of
attack returned by `calc_attack_angle` satisfies the quadratic residual
`q1·α² − q2·α + q3 ≈ 0` within 1e-9 (indeed exactly 0): the code's formula
`-(sqrt(q2²−4q1q3) − q2)/(2q1)` solves the quadratic with middle term
`−q2`, not `+q2`. -/
theorem c1_theorem (local_pitch local_tsr lift_coef_slope lift_coef_intercept
    local_solidity q1 q2 q3 : ℝ)
    (hq : q_terms local_pitch local_tsr lift_coef_slope lift_coef_intercept
      local_solidity = (q1, q2, q3))
    (h1 : q1 ≠ 0) (h2 : 0 ≤ q2 ^ 2 - 4 * q1 * q3) :
    |q1 * calc_attack_angle q1 q2 q3 ^ 2 - q2 * calc_attack_angle q1 q2 q3 + q3|
      ≤ 1e-9 := by
  rw [attack_angle_root q1 q2 q3 h1 h2, abs_zero]
  norm_num

/-- Witness for C1 (amended) at the concrete input of the counterexample:
pitch 0, tsr 1, slope 1, intercept 0, solidity 1 gives (q1, q2, q3) =
(5, −3, 0), non-degenerate, and the amended residual bound holds there. -/
theorem c1_witness :
    q_terms 0 1 1 0 1 = (5, -3, 0) ∧ (5 : ℝ) ≠ 0 ∧
    (0 : ℝ) ≤ (-3 : ℝ) ^ 2 - 4 * 5 * 0 ∧
    |5 * calc_attack_angle 5 (-3) 0 ^ 2 - (-3) * calc_attack_angle 5 (-3) 0 + 0|
      ≤ 1e-9 :=
  ⟨q_terms_eval, by norm_num, by norm_num,
    c1_theorem 0 1 1 0 1 5 (-3) 0 q_terms_eval (by norm_num) (by norm_num)⟩

/-- Numerical lower bound for exp(3/2). -/
lemma exp32_lb : (4 : ℝ) ≤ Real.exp (3 / 2) := by
  have h1 : Real.exp ((3 : ℝ) / 2) = Real.exp 1 * Real.exp (1 / 2) := by
    rw [← Real.exp_add]
    norm_num
  have h2 : (2.7182818283 : ℝ) < Real.exp 1 := Real.exp_one_gt_d9
  have h3 : (3 / 2 : ℝ) ≤ Real.exp (1 / 2) := by
    have h := Real.add_one_le_exp (1 / 2 : ℝ)
    linarith
  have h4 : (0 : ℝ) < Real.exp (1 / 2) := Real.exp_pos _
  rw [h1]
  nlinarith

/-- The Prandtl argument t = exp(−3/2) is at most 1/4. -/
lemma t_le_quarter : Real.exp (-(3 / 2 : ℝ)) ≤ 1 / 4 := by
  rw [Real.exp_neg]
  calc (Real.exp ((3 : ℝ) / 2))⁻¹ ≤ (4 : ℝ)⁻¹ :=
        inv_anti₀ (by norm_num) exp32_lb
    _ = 1 / 4 := by norm_num

/-- The Prandtl argument t = exp(−3/2) is below 1. -/
lemma t_lt_one : Real.exp (-(3 / 2 : ℝ)) < 1 := by
  rw [Real.exp_lt_one_iff]
  norm_num

/-- Lower bound on sqrt(1 − t²) for t = exp(−3/2). -/
lemma sqrt_lb : (96 / 100 : ℝ) ≤ Real.sqrt (1 - Real.exp (-(3 / 2 : ℝ)) ^ 2) := by
  have ht := t_le_quarter
  have ht0 : (0 : ℝ) < Real.exp (-(3 / 2 : ℝ)) := Real.exp_pos _
  have h : ((96 : ℝ) / 100) ^ 2 ≤ 1 - Real.exp (-(3 / 2 : ℝ)) ^ 2 := by nlinarith
  calc (96 / 100 : ℝ) = Real.sqrt (((96 : ℝ) / 100) ^ 2) :=
        (Real.sqrt_sq (by norm_num)).symm
    _ ≤ Real.sqrt (1 - Real.exp (-(3 / 2 : ℝ)) ^ 2) := Real.sqrt_le_sqrt h

/-- Lower bound on sqrt(1 − t²)/t for t = exp(−3/2). -/
lemma X_lb : (384 / 100 : ℝ) ≤
    Real.sqrt (1 - Real.exp (-(3 / 2 : ℝ)) ^ 2) / Real.exp (-(3 / 2 : ℝ)) := by
  have ht0 : (0 : ℝ) < Real.exp (-(3 / 2 : ℝ)) := Real.exp_pos _
  rw [le_div_iff₀ ht0]
  have h1 := t_le_quarter
  have h2 := sqrt_lb
  nlinarith

/-- Lower bound on the argument the source actually hands to arctan:
(sqrt(1 − t²)/t)/(π/2). -/
lemma Xp_lb : (243 / 100 : ℝ) ≤
    Real.sqrt (1 - Real.exp (-(3 / 2 : ℝ)) ^ 2) / Real.exp (-(3 / 2 : ℝ)) /
      (Real.pi / 2) := by
  have hpi : Real.pi < 3.15 := Real.pi_lt_d2
  have hpi0 : (0 : ℝ) < Real.pi := Real.pi_pos
  have hX := X_lb
  rw [le_div_iff₀ (by positivity)]
  nlinarith

/-- cos 1 exceeds 1/2 (since 1 < π/3 and cos is decreasing on [0, π]). -/
lemma cos_one_gt : (1 / 2 : ℝ) < Real.cos 1 := by
  have h3 : (3 : ℝ) < Real.pi := Real.pi_gt_three
  have h := Real.cos_lt_cos_of_nonneg_of_le_pi (by norm_num : (0 : ℝ) ≤ 1)
    (by linarith : Real.pi / 3 ≤ Real.pi) (by linarith : (1 : ℝ) < Real.pi / 3)
  rwa [Real.cos_pi_div_three] at h

/-- tan 1 is below 2.43. -/
lemma tan_one_lt : Real.tan 1 < 243 / 100 := by
  have hc := cos_one_gt
  have hs : Real.sin 1 ≤ 1 := Real.sin_le_one 1
  have hc0 : (0 : ℝ) < Real.cos 1 := by linarith
  rw [Real.tan_eq_sin_div_cos, div_lt_iff₀ hc0]
  nlinarith

/-- The arctan value the source computes at B = 2, r = 2/5, φ = π/2 is
above 1. -/
lemma arctan_X_gt_one : 1 < Real.arctan
    (Real.sqrt (1 - Real.exp (-(3 / 2 : ℝ)) ^ 2) / Real.exp (-(3 / 2 : ℝ)) /
      (Real.pi / 2)) := by
  have h1 : Real.tan 1 <
      Real.sqrt (1 - Real.exp (-(3 / 2 : ℝ)) ^ 2) / Real.exp (-(3 / 2 : ℝ)) /
        (Real.pi / 2) := lt_of_lt_of_le tan_one_lt Xp_lb
  have h2 := Real.arctan_strictMono h1
  have h3 : (3 : ℝ) < Real.pi := Real.pi_gt_three
  rwa [Real.arctan_tan (by linarith : -(Real.pi / 2) < 1)
    (by linarith : (1 : ℝ) < Real.pi / 2)] at h2

/-- Evaluation of `tip_loss` at B = 2, r = 2/5, φ = π/2: the guard holds
and the source returns arctan((sqrt(1 − t²)/t)/(π/2)) with t = exp(−3/2). -/
lemma tip_loss_eval : tip_loss 2 (2 / 5) (Real.pi / 2) =
    Real.arctan (Real.sqrt (1 - Real.exp (-(3 / 2 : ℝ)) ^ 2) /
      Real.exp (-(3 / 2 : ℝ)) / (Real.pi / 2)) := by
  have harg : -(((2 / 2 : ℕ) : ℝ)) * (1 - (2 / 5 : ℝ)) /
      ((2 / 5 : ℝ) * Real.sin (Real.pi / 2)) = -(3 / 2 : ℝ) := by
    rw [Real.sin_pi_div_two]
    norm_num
  have hcond : Real.exp (-(3 / 2 : ℝ)) > 0 ∧
      1 - Real.exp (-(3 / 2 : ℝ)) ^ 2 > 0 :=
    ⟨Real.exp_pos _, by nlinarith [t_lt_one, Real.exp_pos (-(3 / 2 : ℝ))]⟩
  simp only [tip_loss]
  rw [harg, if_pos hcond]

/-- Claim C3: false on the code.  At the valid input B = 2 blades,
fractional radius 2/5, relative-wind angle π/2 the returned tip-loss
factor exceeds 1, outside the claimed interval [0, 1] (the source divides
arctan's argument, not arctan's value, by π/2). -/
theorem c3_theorem : 1 < tip_loss 2 (2 / 5) (Real.pi / 2) := by
  rw [tip_loss_eval]
  exact arctan_X_gt_one

/-- Claim C2: false on the code.  At B = 2, r = 2/5, φ = π/2 (where the
claimed t = exp(−(B/2)(1−r)/(r·sin φ)) = exp(−3/2) and 0 < t, 0 < 1 − t²),
the value returned by `tip_loss` differs from the claimed Prandtl value
atan(sqrt(1−t²)/t)/(π/2): the code's value is above 1 while the claimed
value is below 1. -/
theorem c2_theorem : tip_loss 2 (2 / 5) (Real.pi / 2) ≠
    Real.arctan (Real.sqrt (1 - Real.exp (-((2 : ℝ) / 2) * (1 - 2 / 5) /
        (2 / 5 * Real.sin (Real.pi / 2))) ^ 2) /
      Real.exp (-((2 : ℝ) / 2) * (1 - 2 / 5) /
        (2 / 5 * Real.sin (Real.pi / 2)))) / (Real.pi / 2) := by
  have hspec : -((2 : ℝ) / 2) * (1 - 2 / 5) / (2 / 5 * Real.sin (Real.pi / 2)) =
      -(3 / 2 : ℝ) := by
    rw [Real.sin_pi_div_two]
    norm_num
  rw [hspec]
  have hlt : Real.arctan (Real.sqrt (1 - Real.exp (-(3 / 2 : ℝ)) ^ 2) /
      Real.exp (-(3 / 2 : ℝ))) / (Real.pi / 2) < 1 := by
    rw [div_lt_one (by positivity : (0 : ℝ) < Real.pi / 2)]
    exact Real.arctan_lt_pi_div_two _
  have hgt : 1 < tip_loss 2 (2 / 5) (Real.pi / 2) := by
    rw [tip_loss_eval]
    exact arctan_X_gt_one
  exact (lt_trans hlt hgt).ne'

end

end Aerodyn
